import Mathlib

/-!
Shallow embedding of `httpclient.go` (package `main` of scottso/httpclient):
a thin HTTP request executor that classifies transport outcomes into a fixed
error taxonomy, optionally decodes JSON bodies, and propagates response
headers through an in/out header carrier.

Modelling conventions:
* Go errors become the inductive `GoError`: `errors.New` sentinels,
  `fmt.Errorf` with a single `%w` (a prefix and suffix of text around the
  wrapped cause), and the binary `errors.Join` (the source only ever joins
  two errors).  `errors.Is` becomes `GoError.is`; the sentinel messages in
  the source are pairwise distinct, so structural equality models Go's
  pointer identity of the package-level sentinels.
* The injected `*http.Client` collaborator is abstracted to its `Do`
  method, a function `Request → TransportResult` (error / nil response /
  response), as §6 of the spec describes it.
* `http.NewRequest` (stdlib, not repository code) is an environment
  parameter `Env.newRequest`; theorems hypothesise either that it succeeds
  canonically (`EnvTotal`) or that it fails (`C6`).
* Response bodies are scoped resources, modelled by `BodyState`
  (unread remainder + closed flag); `io.ReadAll`, `io.Copy(io.Discard, _)`
  and `Body.Close()` become the corresponding state transitions.  The
  `json.Decoder` over a `TeeReader` is modelled as reading the whole body;
  a decode target (Go `any` filled via reflection) is modelled by its
  observable decoding behaviour, a function `Decoder` from the body text
  to an optional parse error.
* A nil-pointer dereference (Go runtime panic) is the explicit outcome
  `CallResult.panic`.
* Ghost fields (`sent`, `bodyFate`, `debugDump`) record the call's
  observable effects: the request handed to the transport, the final body
  state, and the Debug dump, so frame claims are statable.
-/

set_option autoImplicit false

namespace HttpClientProof

/-- Go `[]byte` payloads as lists of bytes. -/
abbrev Bytes := List Nat

/-- Go `http.Header`: an association of canonical keys to value lists.
`Header.Clone` is a deep copy, which for a pure value is the identity. -/
abbrev Header := List (String × List String)

/-- Go error values, shallowly: `errors.New` leaves, `fmt.Errorf` with one
`%w` verb (text before and after the wrapped cause), and the binary
`errors.Join` used by the source. -/
inductive GoError
  | sentinel (msg : String)
  | wrap (pre : String) (cause : GoError) (post : String)
  | join (a b : GoError)
deriving DecidableEq

/-- Go `Error()` string: `fmt.Errorf` splices the cause's message between
its surrounding text; `errors.Join` joins messages with a newline. -/
def GoError.msg : GoError → String
  | .sentinel s => s
  | .wrap pre c post => pre ++ c.msg ++ post
  | .join a b => a.msg ++ "\n" ++ b.msg

/-- Go `errors.Is`: identity at each node, then descend through the single
wrapped cause (`fmt.Errorf` with `%w`) or both joined causes. -/
def GoError.is : GoError → GoError → Bool
  | .sentinel s, t => decide (GoError.sentinel s = t)
  | .wrap pre c post, t => decide (GoError.wrap pre c post = t) || c.is t
  | .join a b, t => decide (GoError.join a b = t) || a.is t || b.is t

/-- Sentinel errors of src/httpclient.go lines 17-33. -/
def ErrUserAccessDenied : GoError := .sentinel "requested resource unauthorized"

def ErrNotFound : GoError := .sentinel "requested resource not found"

def ErrTooManyRequests : GoError := .sentinel "requested resource rate limited"

def ErrNilResponse : GoError := .sentinel "response is nil"

def ErrUnprocessableEntity : GoError := .sentinel "unprocessable entity"

def ErrInternalServerError : GoError := .sentinel "internal server error"

def ErrBadRequest : GoError := .sentinel "bad request"

def ErrBadGateway : GoError := .sentinel "bad gateway"

def ErrServiceUnavailable : GoError := .sentinel "service unavailable"

def ErrGatewayTimeout : GoError := .sentinel "gateway timeout"

def ErrUnhandled : GoError := .sentinel "unknown error"

/-- Marker joined onto errors the source considers transient. -/
def ErrRetriable : GoError := .sentinel "retriable error"

/-- Go method-name constants (`http.MethodGet` and friends). -/
def MethodGet : String := "GET"

def MethodPost : String := "POST"

def MethodPut : String := "PUT"

def MethodPatch : String := "PATCH"

def MethodDelete : String := "DELETE"

def MethodHead : String := "HEAD"

/-- `Options` (src line 35). -/
structure Options where
  Debug : Bool
deriving DecidableEq

/-- An outbound `http.Request`: the fields the executor reads or writes. -/
structure Request where
  method : String
  url : String
  header : Header
  body : Option Bytes
deriving DecidableEq

/-- An `http.Response` as delivered by the transport: status, headers and
the (yet unread) body text. -/
structure Response where
  statusCode : Nat
  header : Header
  body : String
deriving DecidableEq

/-- Outcome of one `httpClient.Do` exchange: `(nil, err)`, the misbehaving
`(nil, nil)`, or `(resp, nil)`. -/
inductive TransportResult
  | failure (cause : GoError)
  | nilResponse
  | response (r : Response)
deriving DecidableEq

/-- The injected transport collaborator, abstracted to its `Do` method. -/
abbrev Transport := Request → TransportResult

/-- `Client` (src line 39). -/
structure Client where
  httpClient : Transport
  options : Options

/-- Stand-in for the stdlib `http.DefaultClient`.  `New` only stores the
reference; no claim depends on what this transport does. -/
def DefaultClient : Transport := fun _ => .failure (.sentinel "dial failed")

/-- `New` (src line 230): nil arguments fall back to `http.DefaultClient`
and a zero `Options`. -/
def New (httpClient : Option Transport) (options : Option Options) : Client :=
  let httpClient := httpClient.getD DefaultClient
  let options := options.getD ⟨false⟩
  ⟨httpClient, options⟩

/-- A response body as a scoped resource: the unread remainder and whether
`Close` has run. -/
structure BodyState where
  remaining : String
  closed : Bool
deriving DecidableEq

/-- `io.ReadAll`: returns everything unread, leaving the body exhausted. -/
def BodyState.readAll (b : BodyState) : String × BodyState :=
  (b.remaining, { remaining := "", closed := b.closed })

/-- `io.Copy(io.Discard, body)`: exhausts the body, discarding the bytes. -/
def BodyState.drain (b : BodyState) : BodyState :=
  { b with remaining := "" }

/-- `resp.Body.Close()`. -/
def BodyState.close (b : BodyState) : BodyState :=
  { b with closed := true }

/-- A decode target (Go `any`), characterised by the observable behaviour
of `json.Decoder.Decode` into it on a given body text: `none` on success,
`some e` with the parse error on failure. -/
abbrev Decoder := String → Option GoError

/-- Overall result of a call: no error, a returned error, or a Go runtime
panic (nil pointer dereference). -/
inductive CallResult
  | ok
  | err (e : GoError)
  | panic
deriving DecidableEq

/-- Renders a request body for `httputil.DumpRequest` (wire format,
abstracted; only its inclusion of the bytes matters to any claim). -/
def bodyText : Option Bytes → String
  | none => ""
  | some p => String.intercalate "," (p.map toString)

/-- Renders headers for `httputil.DumpRequest`. -/
def headerText (h : Header) : String :=
  String.intercalate ";" (h.map fun kv => kv.1 ++ "=" ++ String.intercalate "," kv.2)

/-- `httputil.DumpRequest(req, true)` (src line 134): serializes the
request with headers and body.  Per the stdlib contract it reads the body
and replaces it with an equivalent copy, so the request value that is
later sent is unchanged. -/
def dumpRequest (r : Request) : String :=
  r.method ++ " " ++ r.url ++ " " ++ headerText r.header ++ " " ++ bodyText r.body

/-- Environment for the stdlib request constructor `http.NewRequest`
(not repository code): given method, URL and optional body reader it
yields a request or a parse failure. -/
structure Env where
  newRequest : String → String → Option Bytes → Except GoError Request

/-- The environment in which `http.NewRequest` succeeds canonically: the
produced request carries the given method, URL, an empty header set and
exactly the given body (its documented success behaviour). -/
abbrev EnvTotal (env : Env) : Prop :=
  ∀ m u b, env.newRequest m u b = Except.ok ⟨m, u, [], b⟩

/-- A concrete canonical environment, used to instantiate witnesses. -/
def idEnv : Env :=
  ⟨fun m u b => Except.ok ⟨m, u, [], b⟩⟩

theorem idEnv_total : EnvTotal idEnv := fun _ _ _ => rfl

/-- The four statuses the first switch of `do` returns as success
(src lines 193-199). -/
def successStatus (s : Nat) : Bool :=
  s = 200 || s = 201 || s = 202 || s = 204

/-- The second switch of `do` (src lines 206-227): maps a non-success
status and the already-read body bytes to the classified error. -/
def classify (status : Nat) (b : String) : GoError :=
  if status = 404 then ErrNotFound
  else if status = 401 ∨ status = 403 then ErrUserAccessDenied
  else if status = 429 then .join ErrTooManyRequests ErrRetriable
  else if status = 422 then .join ErrUnprocessableEntity ErrRetriable
  else if status = 500 then .join ErrInternalServerError ErrRetriable
  else if status = 502 then .join ErrBadGateway ErrRetriable
  else if status = 503 then .join ErrServiceUnavailable ErrRetriable
  else if status = 504 then .join ErrGatewayTimeout ErrRetriable
  else if status = 400 then ErrBadRequest
  else
    .join (.sentinel ("request failed, " ++ toString status ++
      " status code received: " ++ b)) ErrUnhandled

/-- Result of `Client.do`: a Go runtime panic, a success-status response
with its still-unread body handed up, or an error together with the final
state of the response body when the transport delivered one. -/
inductive DoResult
  | panic
  | success (resp : Response) (body : BodyState)
  | failure (e : GoError) (body : Option BodyState)
deriving DecidableEq

/-- `Client.do` (src lines 182-228).  A transport failure is wrapped with
method and URL; a nil response with nil error hits `resp.StatusCode`
before any nil check, a nil-pointer dereference, so `do` panics there;
otherwise a success status hands the response up untouched, and any other
status has its body fully read (`io.ReadAll`), classified, and closed by
the deferred `resp.Body.Close()` (src line 201). -/
def Client.do (c : Client) (r : Request) : DoResult :=
  match c.httpClient r with
  | .failure cause =>
      .failure
        (.wrap ("failed to make request [" ++ r.method ++ ":" ++ r.url ++ "]: ")
          cause "") none
  | .nilResponse => .panic
  | .response resp =>
      let body : BodyState := ⟨resp.body, false⟩
      if successStatus resp.statusCode then
        .success resp body
      else
        let rd := body.readAll
        .failure (classify resp.statusCode rd.1) (some rd.2.close)

/-- Observable outcome of `Client.doRequest`: the returned result, the
final contents of the header carrier (when one was supplied), the final
state of the response body (when the transport delivered one), and the
request actually handed to the transport. -/
structure DoReqOut where
  result : CallResult
  headersOut : Option Header
  bodyFate : Option BodyState
  sent : Request
deriving DecidableEq

/-- `Client.doRequest` (src lines 142-180).  A supplied carrier first
replaces the request's headers; `do` runs the exchange; its error passes
straight through (the `resp == nil` check at src line 152 is unreachable,
since `do` never returns a response-less success).  On success the carrier
(when supplied) is overwritten with a clone of the response headers; with
no decode target the body is drained and discarded; with one, the decoder
reads the body through a tee into `buf` and a parse failure is wrapped
with the method, URL and the teed body text.  The body is closed by the
deferred `Close` on every one of these paths. -/
def Client.doRequest (c : Client) (r0 : Request) (v : Option Decoder)
    (headers : Option Header) : DoReqOut :=
  let r := match headers with
    | some h => { r0 with header := h }
    | none => r0
  match c.do r with
  | .panic => ⟨.panic, headers, none, r⟩
  | .failure e bf => ⟨.err e, headers, bf, r⟩
  | .success resp b0 =>
      let headersOut := match headers with
        | some _ => some resp.header
        | none => none
      match v with
      | none => ⟨.ok, headersOut, some b0.drain.close, r⟩
      | some d =>
          let rd := b0.readAll
          match d rd.1 with
          | some parseErr =>
              ⟨.err (.wrap "could not parse response body: " parseErr
                  (" [" ++ r.method ++ ":" ++ r.url ++ "] " ++ rd.1)),
                headersOut, some rd.2.close, r⟩
          | none => ⟨.ok, headersOut, some rd.2.close, r⟩

/-- Observable outcome of one verb call, with the construction-stage ghost
data added: `sent` is `none` when the transport was never invoked, and
`debugDump` is the serialized request when Debug caused a dump. -/
structure CallTrace where
  result : CallResult
  headersOut : Option Header
  bodyFate : Option BodyState
  sent : Option Request
  debugDump : Option String
deriving DecidableEq

/-- `Client.newRequest` (src lines 122-140): a non-nil payload (even
empty) becomes the body reader, a nil payload yields no body; a
construction failure is wrapped; under Debug the request is dumped with
headers and body (`DumpRequest` restores the body it reads, so the request
value is unchanged).  The context attachment is dropped by the model. -/
def Client.newRequest (c : Client) (env : Env) (method url : String)
    (payload : Option Bytes) : Except GoError (Request × Option String) :=
  let reqBody : Option Bytes := match payload with
    | some p => some p
    | none => none
  match env.newRequest method url reqBody with
  | .error e => .error (.wrap "failed to create HTTP request: " e "")
  | .ok req =>
      .ok (req, if c.options.Debug then some (dumpRequest req) else none)

/-- Trace of a verb whose construction stage failed: the error is wrapped
with `failMsg` (src line 15) naming the method, and nothing else happened. -/
def failTrace (method : String) (e : GoError) (headers : Option Header) : CallTrace :=
  ⟨.err (.wrap ("failed to create " ++ method ++ " request: ") e ""),
    headers, none, none, none⟩

/-- Trace of a verb that reached `doRequest`. -/
def runTrace (out : DoReqOut) (dump : Option String) : CallTrace :=
  ⟨out.result, out.headersOut, out.bodyFate, some out.sent, dump⟩

/-- `Client.Head` (src lines 44-55): takes a payload but no decode target
(`doRequest` is called with a nil target). -/
def Client.Head (c : Client) (env : Env) (apiURL : String)
    (payload : Option Bytes) (headers : Option Header) : CallTrace :=
  match c.newRequest env MethodHead apiURL payload with
  | .error e => failTrace MethodHead e headers
  | .ok rd => runTrace (c.doRequest rd.1 none headers) rd.2

/-- `Client.Get` (src lines 57-68): takes no payload (`newRequest` is
called with nil). -/
def Client.Get (c : Client) (env : Env) (apiURL : String)
    (v : Option Decoder) (headers : Option Header) : CallTrace :=
  match c.newRequest env MethodGet apiURL none with
  | .error e => failTrace MethodGet e headers
  | .ok rd => runTrace (c.doRequest rd.1 v headers) rd.2

/-- `Client.Post` (src lines 70-81). -/
def Client.Post (c : Client) (env : Env) (apiURL : String)
    (payload : Option Bytes) (v : Option Decoder) (headers : Option Header) : CallTrace :=
  match c.newRequest env MethodPost apiURL payload with
  | .error e => failTrace MethodPost e headers
  | .ok rd => runTrace (c.doRequest rd.1 v headers) rd.2

/-- `Client.Put` (src lines 83-94). -/
def Client.Put (c : Client) (env : Env) (apiURL : String)
    (payload : Option Bytes) (v : Option Decoder) (headers : Option Header) : CallTrace :=
  match c.newRequest env MethodPut apiURL payload with
  | .error e => failTrace MethodPut e headers
  | .ok rd => runTrace (c.doRequest rd.1 v headers) rd.2

/-- `Client.Patch` (src lines 96-107). -/
def Client.Patch (c : Client) (env : Env) (apiURL : String)
    (payload : Option Bytes) (v : Option Decoder) (headers : Option Header) : CallTrace :=
  match c.newRequest env MethodPatch apiURL payload with
  | .error e => failTrace MethodPatch e headers
  | .ok rd => runTrace (c.doRequest rd.1 v headers) rd.2

/-- `Client.Delete` (src lines 109-120). -/
def Client.Delete (c : Client) (env : Env) (apiURL : String)
    (payload : Option Bytes) (v : Option Decoder) (headers : Option Header) : CallTrace :=
  match c.newRequest env MethodDelete apiURL payload with
  | .error e => failTrace MethodDelete e headers
  | .ok rd => runTrace (c.doRequest rd.1 v headers) rd.2

/-- The six verb entry points. -/
inductive Verb
  | get
  | post
  | put
  | patch
  | delete
  | head
deriving DecidableEq

/-- The HTTP method a verb fixes. -/
def Verb.method : Verb → String
  | .get => MethodGet
  | .post => MethodPost
  | .put => MethodPut
  | .patch => MethodPatch
  | .delete => MethodDelete
  | .head => MethodHead

/-- Uniform entry over the six verbs.  `Get` takes no payload in Go, so a
supplied payload is dropped for it; `Head` takes no decode target in Go,
so a supplied target is dropped for it. -/
def Client.call (c : Client) (env : Env) (vb : Verb) (apiURL : String)
    (payload : Option Bytes) (v : Option Decoder) (headers : Option Header) : CallTrace :=
  match vb with
  | .get => c.Get env apiURL v headers
  | .post => c.Post env apiURL payload v headers
  | .put => c.Put env apiURL payload v headers
  | .patch => c.Patch env apiURL payload v headers
  | .delete => c.Delete env apiURL payload v headers
  | .head => c.Head env apiURL payload headers

/-- The body the call as a whole sends: `Get` always sends none. -/
def effPayload : Verb → Option Bytes → Option Bytes
  | .get, _ => none
  | _, p => p

/-- The decode target the call as a whole uses: `Head` always uses none. -/
def effDecoder : Verb → Option Decoder → Option Decoder
  | .head, _ => none
  | _, v => v

/-- Containment of `sub` in `s`, on the character data. -/
abbrev ContainsStr (s sub : String) : Prop :=
  sub.data <:+: s.data

theorem GoError.is_self (e : GoError) : e.is e = true := by
  cases e <;> simp [GoError.is]

@[simp]
theorem GoError.sentinel_is_sentinel (m s : String) :
    (GoError.sentinel m).is (.sentinel s) = decide (m = s) := by
  simp [GoError.is]

@[simp]
theorem GoError.wrap_is_sentinel (pre post : String) (c : GoError) (s : String) :
    (GoError.wrap pre c post).is (.sentinel s) = c.is (.sentinel s) := by
  simp [GoError.is]

@[simp]
theorem GoError.join_is_sentinel (a b : GoError) (s : String) :
    (GoError.join a b).is (.sentinel s) = (a.is (.sentinel s) || b.is (.sentinel s)) := by
  simp [GoError.is]

/-- Under a canonically succeeding `http.NewRequest`, every verb call is
`doRequest` on the request built from its method, URL and effective
payload, together with the Debug dump of that request. -/
theorem call_eq (c : Client) (env : Env) (henv : EnvTotal env) (vb : Verb)
    (url : String) (payload : Option Bytes) (v : Option Decoder)
    (headers : Option Header) :
    c.call env vb url payload v headers =
      runTrace
        (c.doRequest ⟨vb.method, url, [], effPayload vb payload⟩ (effDecoder vb v) headers)
        (if c.options.Debug then
          some (dumpRequest ⟨vb.method, url, [], effPayload vb payload⟩)
        else none) := by
  cases vb <;> cases payload <;>
    simp [Client.call, Client.Get, Client.Post, Client.Put, Client.Patch,
      Client.Delete, Client.Head, Client.newRequest, henv, effPayload,
      effDecoder, Verb.method]

/-- `doRequest` against a transport that fails: the wrapped transport
error passes through, the carrier is untouched, no body ever existed. -/
theorem doRequest_failure (cause : GoError) (opts : Options) (r : Request)
    (v : Option Decoder) (headers : Option Header) :
    (Client.mk (fun _ => .failure cause) opts).doRequest r v headers =
      ⟨.err (.wrap ("failed to make request [" ++ r.method ++ ":" ++ r.url ++ "]: ") cause ""),
        headers, none, { r with header := headers.getD r.header }⟩ := by
  cases headers <;> simp [Client.doRequest, Client.do]

/-- `doRequest` against a transport that yields a nil response with nil
error: `do` dereferences the nil response, a panic; the carrier is
untouched. -/
theorem doRequest_nilResponse (opts : Options) (r : Request)
    (v : Option Decoder) (headers : Option Header) :
    (Client.mk (fun _ => .nilResponse) opts).doRequest r v headers =
      ⟨.panic, headers, none, { r with header := headers.getD r.header }⟩ := by
  cases headers <;> simp [Client.doRequest, Client.do]

/-- `doRequest` against a response with a non-success status: the body is
fully read and closed, the classified error passes through, the carrier is
untouched. -/
theorem doRequest_classified (resp : Response) (opts : Options) (r : Request)
    (v : Option Decoder) (headers : Option Header)
    (hs : successStatus resp.statusCode = false) :
    (Client.mk (fun _ => .response resp) opts).doRequest r v headers =
      ⟨.err (classify resp.statusCode resp.body), headers, some ⟨"", true⟩,
        { r with header := headers.getD r.header }⟩ := by
  cases headers <;>
    simp [Client.doRequest, Client.do, hs, BodyState.readAll, BodyState.close]

/-- `doRequest` against a success-status response with no decode target:
no error, the carrier (when supplied) is overwritten with the response
headers, the body is drained and closed. -/
theorem doRequest_success_discard (resp : Response) (opts : Options) (r : Request)
    (headers : Option Header) (hs : successStatus resp.statusCode = true) :
    (Client.mk (fun _ => .response resp) opts).doRequest r none headers =
      ⟨.ok, headers.map fun _ => resp.header, some ⟨"", true⟩,
        { r with header := headers.getD r.header }⟩ := by
  cases headers <;>
    simp [Client.doRequest, Client.do, hs, BodyState.drain, BodyState.close]

/-- Exhibiting a substring through an explicit data-level split. -/
theorem containsStr_intro (s mid : String) (a b : List Char)
    (h : s.data = a ++ mid.data ++ b) : ContainsStr s mid :=
  ⟨a, b, h.symm⟩

/-- The Unhandled diagnostic text can never collide with the retriable
sentinel, whatever status and body follow the fixed prefix. -/
theorem request_failed_ne_retriable (x : String) :
    "request failed, " ++ x ≠ "retriable error" := by
  intro h
  have h2 : ("request failed, " ++ x).data.take 3 =
      ("retriable error" : String).data.take 3 := by rw [h]
  rw [String.data_append, List.take_append_of_le_length (by decide)] at h2
  exact absurd h2 (by decide)

/-- `doRequest` against a success-status response with a decode target:
the carrier (when supplied) is overwritten before the decode runs, the
body is read through the tee and closed, and a parse failure is wrapped
with method, URL and the teed body text. -/
theorem doRequest_success_decode (resp : Response) (opts : Options) (r : Request)
    (d : Decoder) (headers : Option Header) (hs : successStatus resp.statusCode = true) :
    (Client.mk (fun _ => .response resp) opts).doRequest r (some d) headers =
      ⟨match d resp.body with
        | some parseErr =>
            .err (.wrap "could not parse response body: " parseErr
              (" [" ++ r.method ++ ":" ++ r.url ++ "] " ++ resp.body))
        | none => .ok,
        headers.map fun _ => resp.header, some ⟨"", true⟩,
        { r with header := headers.getD r.header }⟩ := by
  cases headers <;> cases hd : d resp.body <;>
    simp [Client.doRequest, Client.do, hs, hd, BodyState.readAll, BodyState.close]

/-- C1 counterexample: against a transport double that yields a nil
response with a nil error, the call does not return the NilResponse
error — it panics on the nil dereference in `do`, so the clause "the call
returns NilResponse" of the claim is false. -/
theorem C1_counterexample :
    (Client.call ⟨fun _ => .nilResponse, ⟨false⟩⟩ idEnv .get "https://x/"
        none none none).result = .panic ∧
      CallResult.panic ≠ .err ErrNilResponse := by
  exact ⟨rfl, by decide⟩

/-- C1 (amended): for every call through any of the six verb entry points,
against any single-exchange transport behaviour: a transport failure comes
back as a TransportError wrapping the cause and naming method and URL, not
retriable when the underlying cause is not; a nil response with a nil
error makes the call panic on a nil dereference (the NilResponse return is
unreachable); a 200/201/202/204 status classifies as success (no error);
and each remaining status row of the table maps to exactly the stated
error kind with exactly the stated Retriable marking, the unlisted
non-2xx statuses yielding Unhandled with status code and body text, not
retriable. -/
theorem C1_classifier_table (opts : Options) (env : Env) (henv : EnvTotal env)
    (vb : Verb) (url : String) (payload : Option Bytes) (v : Option Decoder)
    (headers : Option Header) :
    (∀ cause, ∃ e,
      (Client.call ⟨fun _ => .failure cause, opts⟩ env vb url payload v headers).result
          = .err e ∧
        e.is cause = true ∧ ContainsStr e.msg vb.method ∧ ContainsStr e.msg url ∧
        (cause.is ErrRetriable = false → e.is ErrRetriable = false)) ∧
    ((Client.call ⟨fun _ => .nilResponse, opts⟩ env vb url payload v headers).result
        = .panic) ∧
    (∀ resp, successStatus resp.statusCode = true →
      ∀ r : Request, (Client.mk (fun _ => .response resp) opts).do r
          = .success resp ⟨resp.body, false⟩) ∧
    (∀ resp, resp.statusCode = 400 →
      (Client.call ⟨fun _ => .response resp, opts⟩ env vb url payload v headers).result
          = .err ErrBadRequest ∧ ErrBadRequest.is ErrRetriable = false) ∧
    (∀ resp, resp.statusCode = 401 ∨ resp.statusCode = 403 →
      (Client.call ⟨fun _ => .response resp, opts⟩ env vb url payload v headers).result
          = .err ErrUserAccessDenied ∧ ErrUserAccessDenied.is ErrRetriable = false) ∧
    (∀ resp, resp.statusCode = 404 →
      (Client.call ⟨fun _ => .response resp, opts⟩ env vb url payload v headers).result
          = .err ErrNotFound ∧ ErrNotFound.is ErrRetriable = false) ∧
    (∀ resp, resp.statusCode = 422 →
      (Client.call ⟨fun _ => .response resp, opts⟩ env vb url payload v headers).result
          = .err (.join ErrUnprocessableEntity ErrRetriable) ∧
        (GoError.join ErrUnprocessableEntity ErrRetriable).is ErrUnprocessableEntity = true ∧
        (GoError.join ErrUnprocessableEntity ErrRetriable).is ErrRetriable = true) ∧
    (∀ resp, resp.statusCode = 429 →
      (Client.call ⟨fun _ => .response resp, opts⟩ env vb url payload v headers).result
          = .err (.join ErrTooManyRequests ErrRetriable) ∧
        (GoError.join ErrTooManyRequests ErrRetriable).is ErrTooManyRequests = true ∧
        (GoError.join ErrTooManyRequests ErrRetriable).is ErrRetriable = true) ∧
    (∀ resp, resp.statusCode = 500 →
      (Client.call ⟨fun _ => .response resp, opts⟩ env vb url payload v headers).result
          = .err (.join ErrInternalServerError ErrRetriable) ∧
        (GoError.join ErrInternalServerError ErrRetriable).is ErrInternalServerError = true ∧
        (GoError.join ErrInternalServerError ErrRetriable).is ErrRetriable = true) ∧
    (∀ resp, resp.statusCode = 502 →
      (Client.call ⟨fun _ => .response resp, opts⟩ env vb url payload v headers).result
          = .err (.join ErrBadGateway ErrRetriable) ∧
        (GoError.join ErrBadGateway ErrRetriable).is ErrBadGateway = true ∧
        (GoError.join ErrBadGateway ErrRetriable).is ErrRetriable = true) ∧
    (∀ resp, resp.statusCode = 503 →
      (Client.call ⟨fun _ => .response resp, opts⟩ env vb url payload v headers).result
          = .err (.join ErrServiceUnavailable ErrRetriable) ∧
        (GoError.join ErrServiceUnavailable ErrRetriable).is ErrServiceUnavailable = true ∧
        (GoError.join ErrServiceUnavailable ErrRetriable).is ErrRetriable = true) ∧
    (∀ resp, resp.statusCode = 504 →
      (Client.call ⟨fun _ => .response resp, opts⟩ env vb url payload v headers).result
          = .err (.join ErrGatewayTimeout ErrRetriable) ∧
        (GoError.join ErrGatewayTimeout ErrRetriable).is ErrGatewayTimeout = true ∧
        (GoError.join ErrGatewayTimeout ErrRetriable).is ErrRetriable = true) ∧
    (∀ resp, resp.statusCode < 200 ∨ 300 ≤ resp.statusCode →
      resp.statusCode ∉ ([400, 401, 403, 404, 422, 429, 500, 502, 503, 504] : List Nat) →
      ∃ e,
        (Client.call ⟨fun _ => .response resp, opts⟩ env vb url payload v headers).result
            = .err e ∧
          e.is ErrUnhandled = true ∧ e.is ErrRetriable = false ∧
          ContainsStr e.msg (toString resp.statusCode) ∧ ContainsStr e.msg resp.body) := by
  refine ⟨?_, ?_, ?_, ?_, ?_, ?_, ?_, ?_, ?_, ?_, ?_, ?_, ?_⟩
  · intro cause
    rw [call_eq _ _ henv, doRequest_failure]
    refine ⟨_, rfl, ?_, ?_, ?_, ?_⟩
    · simp [GoError.is, GoError.is_self]
    · apply containsStr_intro _ _ "failed to make request [".data
        ((":" ++ url ++ "]: ") ++ cause.msg ++ "").data
      simp [GoError.msg, String.data_append, List.append_assoc]
    · apply containsStr_intro _ _ ("failed to make request [" ++ vb.method ++ ":").data
        ("]: " ++ cause.msg ++ "").data
      simp [GoError.msg, String.data_append, List.append_assoc]
    · intro hc
      simp only [ErrRetriable, GoError.wrap_is_sentinel]
      simpa [ErrRetriable] using hc
  · rw [call_eq _ _ henv, doRequest_nilResponse]
    rfl
  · intro resp hs r
    simp [Client.do, hs]
  · intro resp h
    have hs : successStatus resp.statusCode = false := by simp [successStatus, h]
    rw [call_eq _ _ henv, doRequest_classified _ _ _ _ _ hs]
    exact ⟨by simp [runTrace, classify, h], by decide⟩
  · intro resp h
    have hs : successStatus resp.statusCode = false := by
      rcases h with h | h <;> simp [successStatus, h]
    rw [call_eq _ _ henv, doRequest_classified _ _ _ _ _ hs]
    refine ⟨?_, by decide⟩
    rcases h with h | h <;> simp [runTrace, classify, h]
  · intro resp h
    have hs : successStatus resp.statusCode = false := by simp [successStatus, h]
    rw [call_eq _ _ henv, doRequest_classified _ _ _ _ _ hs]
    exact ⟨by simp [runTrace, classify, h], by decide⟩
  · intro resp h
    have hs : successStatus resp.statusCode = false := by simp [successStatus, h]
    rw [call_eq _ _ henv, doRequest_classified _ _ _ _ _ hs]
    exact ⟨by simp [runTrace, classify, h], by decide, by decide⟩
  · intro resp h
    have hs : successStatus resp.statusCode = false := by simp [successStatus, h]
    rw [call_eq _ _ henv, doRequest_classified _ _ _ _ _ hs]
    exact ⟨by simp [runTrace, classify, h], by decide, by decide⟩
  · intro resp h
    have hs : successStatus resp.statusCode = false := by simp [successStatus, h]
    rw [call_eq _ _ henv, doRequest_classified _ _ _ _ _ hs]
    exact ⟨by simp [runTrace, classify, h], by decide, by decide⟩
  · intro resp h
    have hs : successStatus resp.statusCode = false := by simp [successStatus, h]
    rw [call_eq _ _ henv, doRequest_classified _ _ _ _ _ hs]
    exact ⟨by simp [runTrace, classify, h], by decide, by decide⟩
  · intro resp h
    have hs : successStatus resp.statusCode = false := by simp [successStatus, h]
    rw [call_eq _ _ henv, doRequest_classified _ _ _ _ _ hs]
    exact ⟨by simp [runTrace, classify, h], by decide, by decide⟩
  · intro resp h
    have hs : successStatus resp.statusCode = false := by simp [successStatus, h]
    rw [call_eq _ _ henv, doRequest_classified _ _ _ _ _ hs]
    exact ⟨by simp [runTrace, classify, h], by decide, by decide⟩
  · intro resp hrange hnot
    simp only [List.mem_cons, List.not_mem_nil, or_false] at hnot
    push_neg at hnot
    obtain ⟨h400, h401, h403, h404, h422, h429, h500, h502, h503, h504⟩ := hnot
    have hs : successStatus resp.statusCode = false := by
      simp only [successStatus, Bool.or_eq_false_iff, decide_eq_false_iff_not]
      omega
    rw [call_eq _ _ henv, doRequest_classified _ _ _ _ _ hs]
    rw [classify, if_neg h404, if_neg (by tauto), if_neg h429, if_neg h422,
      if_neg h500, if_neg h502, if_neg h503, if_neg h504, if_neg h400]
    refine ⟨_, rfl, ?_, ?_, ?_, ?_⟩
    · simp [ErrUnhandled]
    · have hne : "request failed, " ++ (toString resp.statusCode ++
          (" status code received: " ++ resp.body)) ≠ "retriable error" :=
        request_failed_ne_retriable _
      simp only [ErrRetriable, GoError.join_is_sentinel, GoError.sentinel_is_sentinel,
        Bool.or_eq_false_iff, decide_eq_false_iff_not]
      constructor
      · intro hcollide
        apply hne
        rw [← hcollide]
        apply String.ext
        simp [String.data_append, List.append_assoc]
      · decide
    · apply containsStr_intro _ _ "request failed, ".data
        ((" status code received: " ++ resp.body) ++ "\n" ++ "unknown error").data
      simp [GoError.msg, ErrUnhandled, String.data_append, List.append_assoc]
    · apply containsStr_intro _ _
        ("request failed, " ++ toString resp.statusCode ++ " status code received: ").data
        ("\n" ++ "unknown error").data
      simp [GoError.msg, ErrUnhandled, String.data_append, List.append_assoc]

/-- C1 witness: the 429 row of the table, instantiated on a concrete
Delete call, yields exactly the joined TooManyRequests/Retriable error. -/
theorem C1_witness :
    (Client.call ⟨fun _ => .response ⟨429, [("a", ["b"])], "x"⟩, ⟨false⟩⟩ idEnv
        .delete "https://api/" (some [1]) none none).result
      = .err (.join ErrTooManyRequests ErrRetriable) := by
  have h := C1_classifier_table ⟨false⟩ idEnv (fun _ _ _ => rfl) .delete
    "https://api/" (some [1]) none none
  exact (h.2.2.2.2.2.2.2.1 ⟨429, [("a", ["b"])], "x"⟩ rfl).1

/-- C2 counterexample: on a 203 response (a 2xx status) the supplied
carrier keeps its previous contents; the response's header set is not
copied into it, refuting the claim's "2xx status" scope. -/
theorem C2_counterexample :
    (Client.call ⟨fun _ => .response ⟨203, [("location", ["https://x/"])], "b"⟩, ⟨false⟩⟩
        idEnv .get "u" none none (some [("old", ["v"])])).headersOut
      = some [("old", ["v"])] ∧
    ([("old", ["v"])] : Header) ≠ [("location", ["https://x/"])] :=
  ⟨rfl, by decide⟩

/-- C2 (amended): for every call with a header carrier supplied where the
transport returns a response with a success status (200, 201, 202 or
204), after the call the carrier holds exactly a full copy of the
response's header set, replacing its previous contents, regardless of
whether a decode target was supplied and for every verb including Head. -/
theorem C2_header_overwrite (opts : Options) (env : Env) (henv : EnvTotal env)
    (vb : Verb) (url : String) (payload : Option Bytes) (v : Option Decoder)
    (h0 : Header) (resp : Response) (hs : successStatus resp.statusCode = true) :
    (Client.call ⟨fun _ => .response resp, opts⟩ env vb url payload v
        (some h0)).headersOut = some resp.header := by
  rw [call_eq _ _ henv]
  cases hv : effDecoder vb v with
  | none => rw [doRequest_success_discard _ _ _ _ hs]; rfl
  | some d => rw [doRequest_success_decode _ _ _ _ _ hs]; rfl

/-- C2 witness: a Head call against a 200 response overwrites the
carrier's previous contents with the response's location header. -/
theorem C2_witness :
    (Client.call ⟨fun _ => .response ⟨200, [("location", ["https://this.location/"])], ""⟩,
        ⟨false⟩⟩ idEnv .head "https://my.path/test" none none
        (some [("content-type", ["application/json"])])).headersOut
      = some [("location", ["https://this.location/"])] :=
  C2_header_overwrite ⟨false⟩ idEnv (fun _ _ _ => rfl) .head "https://my.path/test"
    none none [("content-type", ["application/json"])]
    ⟨200, [("location", ["https://this.location/"])], ""⟩ rfl

/-- C3 counterexample: on a 203 response (a 2xx status) with a failing
decode target the call fails with the Unhandled classification, whose
string representation does not contain the request URL, refuting the
claim's "2xx" scope. -/
theorem C3_counterexample :
    (Client.call ⟨fun _ => .response ⟨203, [], "notjson"⟩, ⟨false⟩⟩ idEnv .get
        "https://zq/" none (some fun _ => some (.sentinel "invalid character"))
        none).result
      = .err (.join (.sentinel "request failed, 203 status code received: notjson")
          ErrUnhandled) ∧
    ¬ ContainsStr (GoError.join
        (.sentinel "request failed, 203 status code received: notjson")
        ErrUnhandled).msg "https://zq/" :=
  ⟨rfl, by decide⟩

/-- C3 (amended): for every call with a decode target supplied (possible
for every verb but Head) where the transport returns a success-status
(200, 201, 202 or 204) response whose body the target fails to parse, the
call fails with a DecodeError whose string representation contains the
underlying parse error, the request method, the request URL and the raw
body text that failed to parse, and the error does not carry the
Retriable marking provided the underlying parse error does not. -/
theorem C3_decode_error (opts : Options) (env : Env) (henv : EnvTotal env)
    (vb : Verb) (hvb : vb ≠ .head) (url : String) (payload : Option Bytes)
    (d : Decoder) (headers : Option Header) (resp : Response)
    (hs : successStatus resp.statusCode = true) (parseErr : GoError)
    (hd : d resp.body = some parseErr) (hr : parseErr.is ErrRetriable = false) :
    ∃ e,
      (Client.call ⟨fun _ => .response resp, opts⟩ env vb url payload (some d)
          headers).result = .err e ∧
      ContainsStr e.msg parseErr.msg ∧ ContainsStr e.msg vb.method ∧
      ContainsStr e.msg url ∧ ContainsStr e.msg resp.body ∧
      e.is parseErr = true ∧ e.is ErrRetriable = false := by
  have hv : effDecoder vb (some d) = some d := by
    cases vb <;> first | rfl | exact absurd rfl hvb
  rw [call_eq _ _ henv, hv, doRequest_success_decode _ _ _ _ _ hs]
  refine ⟨GoError.wrap "could not parse response body: " parseErr
      (" [" ++ vb.method ++ ":" ++ url ++ "] " ++ resp.body),
    by simp [runTrace, hd], ?_, ?_, ?_, ?_, ?_, ?_⟩
  · apply containsStr_intro _ _ "could not parse response body: ".data
      (" [" ++ vb.method ++ ":" ++ url ++ "] " ++ resp.body).data
    simp [GoError.msg, String.data_append, List.append_assoc]
  · apply containsStr_intro _ _
      ("could not parse response body: " ++ parseErr.msg ++ " [").data
      (":" ++ url ++ "] " ++ resp.body).data
    simp [GoError.msg, String.data_append, List.append_assoc]
  · apply containsStr_intro _ _
      ("could not parse response body: " ++ parseErr.msg ++ " [" ++ vb.method ++ ":").data
      ("] " ++ resp.body).data
    simp [GoError.msg, String.data_append, List.append_assoc]
  · apply containsStr_intro _ _
      ("could not parse response body: " ++ parseErr.msg ++ " [" ++ vb.method ++
        ":" ++ url ++ "] ").data []
    simp [GoError.msg, String.data_append, List.append_assoc]
  · simp [GoError.is, GoError.is_self]
  · simp only [ErrRetriable, GoError.wrap_is_sentinel]
    simpa [ErrRetriable] using hr

/-- C3 witness: a Get whose 200 response body fails to parse returns the
wrapped DecodeError with method, URL and body in its message. -/
theorem C3_witness :
    ∃ e,
      (Client.call ⟨fun _ => .response ⟨200, [], "notjson"⟩, ⟨false⟩⟩ idEnv .get
          "https://my.path/test" none
          (some fun _ => some (.sentinel "invalid character")) none).result = .err e ∧
      ContainsStr e.msg (GoError.sentinel "invalid character").msg ∧
      ContainsStr e.msg (Verb.get).method ∧ ContainsStr e.msg "https://my.path/test" ∧
      ContainsStr e.msg "notjson" ∧
      e.is (.sentinel "invalid character") = true ∧ e.is ErrRetriable = false :=
  C3_decode_error ⟨false⟩ idEnv (fun _ _ _ => rfl) .get (by decide)
    "https://my.path/test" none (fun _ => some (.sentinel "invalid character"))
    none ⟨200, [], "notjson"⟩ rfl (.sentinel "invalid character") rfl (by decide)

/-- Head drops a supplied decode target (its Go signature has none). -/
theorem effDecoder_none (vb : Verb) : effDecoder vb none = none := by
  cases vb <;> rfl

/-- `doRequest` hands the transport exactly the built request, with its
headers replaced by the carrier's contents when one was supplied. -/
theorem doRequest_sent (c : Client) (r : Request) (v : Option Decoder)
    (headers : Option Header) :
    (c.doRequest r v headers).sent = { r with header := headers.getD r.header } := by
  cases headers <;>
    · simp only [Client.doRequest, Option.getD]
      split
      all_goals first
        | rfl
        | (split
           all_goals first
             | rfl
             | (split <;> rfl))

/-- Under a request constructor that fails with `parseErr`, every verb
call fails at construction: the doubly wrapped error, an untouched
carrier, and no transport exchange. -/
theorem call_eq_fail (c : Client) (env : Env) (parseErr : GoError)
    (henv : ∀ m u b, env.newRequest m u b = .error parseErr) (vb : Verb)
    (url : String) (payload : Option Bytes) (v : Option Decoder)
    (headers : Option Header) :
    c.call env vb url payload v headers =
      failTrace vb.method (.wrap "failed to create HTTP request: " parseErr "")
        headers := by
  cases vb <;> cases payload <;>
    simp [Client.call, Client.Get, Client.Post, Client.Put, Client.Patch,
      Client.Delete, Client.Head, Client.newRequest, henv, Verb.method]

/-- C4: every response body not delivered to a decode target is fully
read and the body closed before the call returns: with no decode target a
success response is drained and the call succeeds; a non-2xx classified
response has its body fully read and closed before the error returns; and
on every exit path on which a response body existed, it is closed. -/
theorem C4_body_lifecycle (tres : TransportResult) (opts : Options) (env : Env)
    (henv : EnvTotal env) (vb : Verb) (url : String) (payload : Option Bytes)
    (v : Option Decoder) (headers : Option Header) :
    (∀ resp, tres = .response resp → successStatus resp.statusCode = true →
      v = none →
      (Client.call ⟨fun _ => tres, opts⟩ env vb url payload v headers).result = .ok ∧
      (Client.call ⟨fun _ => tres, opts⟩ env vb url payload v headers).bodyFate
          = some ⟨"", true⟩) ∧
    (∀ resp, tres = .response resp →
      resp.statusCode < 200 ∨ 300 ≤ resp.statusCode →
      (Client.call ⟨fun _ => tres, opts⟩ env vb url payload v headers).bodyFate
          = some ⟨"", true⟩) ∧
    (∀ bs, (Client.call ⟨fun _ => tres, opts⟩ env vb url payload v headers).bodyFate
        = some bs → bs.closed = true) := by
  refine ⟨?_, ?_, ?_⟩
  · rintro resp rfl hs rfl
    rw [call_eq _ _ henv, effDecoder_none, doRequest_success_discard _ _ _ _ hs]
    exact ⟨rfl, rfl⟩
  · rintro resp rfl hrange
    have hs : successStatus resp.statusCode = false := by
      simp only [successStatus, Bool.or_eq_false_iff, decide_eq_false_iff_not]
      omega
    rw [call_eq _ _ henv, doRequest_classified _ _ _ _ _ hs]
    rfl
  · intro bs
    rw [call_eq _ _ henv]
    cases tres with
    | failure cause =>
        rw [doRequest_failure]
        intro h
        exact absurd h (by simp [runTrace])
    | nilResponse =>
        rw [doRequest_nilResponse]
        intro h
        exact absurd h (by simp [runTrace])
    | response resp =>
        cases hs : successStatus resp.statusCode with
        | false =>
            rw [doRequest_classified _ _ _ _ _ hs]
            intro h
            simp only [runTrace] at h
            cases h
            rfl
        | true =>
            cases hv : effDecoder vb v with
            | none =>
                rw [doRequest_success_discard _ _ _ _ hs]
                intro h
                simp only [runTrace] at h
                cases h
                rfl
            | some d =>
                rw [doRequest_success_decode _ _ _ _ _ hs]
                intro h
                simp only [runTrace] at h
                cases h
                rfl

/-- C4 witness: a Post with no decode target against a 200 response with
a non-empty body succeeds and leaves the body exhausted and closed. -/
theorem C4_witness :
    (Client.call ⟨fun _ => .response ⟨200, [], "leftover"⟩, ⟨false⟩⟩ idEnv .post
        "u" (some [1, 2]) none none).result = .ok ∧
    (Client.call ⟨fun _ => .response ⟨200, [], "leftover"⟩, ⟨false⟩⟩ idEnv .post
        "u" (some [1, 2]) none none).bodyFate = some ⟨"", true⟩ :=
  (C4_body_lifecycle (.response ⟨200, [], "leftover"⟩) ⟨false⟩ idEnv
    (fun _ _ _ => rfl) .post "u" (some [1, 2]) none none).1
    ⟨200, [], "leftover"⟩ rfl rfl rfl

/-- C5: Head never attempts a body decode: a supplied decode target is
ignored outright (the call is literally the same), a success-status
response yields no error whatever its body (in particular an empty one)
while a supplied carrier still receives the response headers, and on
classified statuses, transport failures and nil responses Head's outcome
matches the other verbs' classification. -/
theorem C5_head_semantics (tres : TransportResult) (opts : Options) (env : Env)
    (henv : EnvTotal env) (url : String) (payload : Option Bytes)
    (v v' : Option Decoder) (headers : Option Header) :
    (Client.call ⟨fun _ => tres, opts⟩ env .head url payload v headers =
      Client.call ⟨fun _ => tres, opts⟩ env .head url payload v' headers) ∧
    (∀ resp, tres = .response resp → successStatus resp.statusCode = true →
      (Client.call ⟨fun _ => tres, opts⟩ env .head url payload v headers).result
          = .ok ∧
      ∀ h0, headers = some h0 →
        (Client.call ⟨fun _ => tres, opts⟩ env .head url payload v headers).headersOut
            = some resp.header) ∧
    (∀ resp vb, tres = .response resp → successStatus resp.statusCode = false →
      (Client.call ⟨fun _ => tres, opts⟩ env .head url payload v headers).result
          = (Client.call ⟨fun _ => tres, opts⟩ env vb url payload v headers).result) ∧
    (∀ cause, tres = .failure cause →
      (Client.call ⟨fun _ => tres, opts⟩ env .head url payload v headers).result
          = .err (.wrap ("failed to make request [" ++ MethodHead ++ ":" ++ url ++ "]: ")
              cause "")) ∧
    (tres = .nilResponse →
      (Client.call ⟨fun _ => tres, opts⟩ env .head url payload v headers).result
          = .panic) := by
  refine ⟨rfl, ?_, ?_, ?_, ?_⟩
  · rintro resp rfl hs
    rw [call_eq _ _ henv]
    have hv : effDecoder Verb.head v = none := rfl
    rw [hv, doRequest_success_discard _ _ _ _ hs]
    exact ⟨rfl, fun h0 hh => by cases hh; rfl⟩
  · rintro resp vb rfl hs
    rw [call_eq _ _ henv, call_eq _ _ henv]
    cases hv : effDecoder vb v with
    | none =>
        rw [doRequest_classified _ _ _ _ _ hs, doRequest_classified _ _ _ _ _ hs]
        rfl
    | some d =>
        rw [doRequest_classified _ _ _ _ _ hs, doRequest_classified _ _ _ _ _ hs]
        rfl
  · rintro cause rfl
    rw [call_eq _ _ henv, doRequest_failure]
    rfl
  · rintro rfl
    rw [call_eq _ _ henv, doRequest_nilResponse]
    rfl

/-- C5 witness: a Head call ignores a decode target that would fail on
the empty body, and still reports the 404 classification identically to
Get. -/
theorem C5_witness :
    (Client.call ⟨fun _ => .response ⟨200, [], ""⟩, ⟨false⟩⟩ idEnv .head "u" none
        (some fun _ => some (.sentinel "unexpected end of JSON input")) none).result
      = .ok ∧
    (Client.call ⟨fun _ => .response ⟨404, [], ""⟩, ⟨false⟩⟩ idEnv .head "u" none
        none none).result
      = (Client.call ⟨fun _ => .response ⟨404, [], ""⟩, ⟨false⟩⟩ idEnv .get "u" none
        none none).result :=
  ⟨((C5_head_semantics (.response ⟨200, [], ""⟩) ⟨false⟩ idEnv (fun _ _ _ => rfl)
      "u" none (some fun _ => some (.sentinel "unexpected end of JSON input"))
      none none).2.1 ⟨200, [], ""⟩ rfl rfl).1,
    (C5_head_semantics (.response ⟨404, [], ""⟩) ⟨false⟩ idEnv (fun _ _ _ => rfl)
      "u" none none none none).2.2.1 ⟨404, [], ""⟩ .get rfl rfl⟩

/-- C6: when request construction fails, every verb call returns an error
wrapping the underlying parse failure and naming the attempted method in
its message, the error never carries the Retriable marking (provided the
parse failure itself does not), and the transport is never invoked. -/
theorem C6_construction_failure (t : Transport) (opts : Options) (env : Env)
    (parseErr : GoError)
    (henv : ∀ m u b, env.newRequest m u b = .error parseErr) (vb : Verb)
    (url : String) (payload : Option Bytes) (v : Option Decoder)
    (headers : Option Header) (hr : parseErr.is ErrRetriable = false) :
    ∃ e,
      (Client.call ⟨t, opts⟩ env vb url payload v headers).result = .err e ∧
      e.is parseErr = true ∧ ContainsStr e.msg vb.method ∧
      e.is ErrRetriable = false ∧
      (Client.call ⟨t, opts⟩ env vb url payload v headers).sent = none := by
  rw [call_eq_fail _ _ _ henv]
  refine ⟨GoError.wrap ("failed to create " ++ vb.method ++ " request: ")
      (.wrap "failed to create HTTP request: " parseErr "") "",
    rfl, ?_, ?_, ?_, rfl⟩
  · simp [GoError.is, GoError.is_self]
  · apply containsStr_intro _ _ "failed to create ".data
      (" request: " ++ ("failed to create HTTP request: " ++ parseErr.msg ++ "") ++ "").data
    simp [GoError.msg, String.data_append, List.append_assoc]
  · simp only [ErrRetriable, GoError.wrap_is_sentinel]
    simpa [ErrRetriable] using hr

/-- C6 witness: a Put against an always-failing request constructor
returns the wrapped construction error naming PUT, and never reaches the
transport. -/
theorem C6_witness :
    ∃ e,
      (Client.call ⟨fun _ => .nilResponse, ⟨false⟩⟩
          ⟨fun _ _ _ => .error (.sentinel "parse \"://\": missing protocol scheme")⟩
          .put "://" (some []) none none).result = .err e ∧
      e.is (.sentinel "parse \"://\": missing protocol scheme") = true ∧
      ContainsStr e.msg (Verb.put).method ∧ e.is ErrRetriable = false ∧
      (Client.call ⟨fun _ => .nilResponse, ⟨false⟩⟩
          ⟨fun _ _ _ => .error (.sentinel "parse \"://\": missing protocol scheme")⟩
          .put "://" (some []) none none).sent = none :=
  C6_construction_failure (fun _ => .nilResponse) ⟨false⟩
    ⟨fun _ _ _ => .error (.sentinel "parse \"://\": missing protocol scheme")⟩
    (.sentinel "parse \"://\": missing protocol scheme") (fun _ _ _ => rfl) .put
    "://" (some []) none none (by decide)

/-- C7 counterexample: Get's entry point takes no payload — the Go
signature has no payload parameter and `newRequest` is called with nil —
so a payload supplied to the uniform entry is dropped and the request
goes out with no body, refuting "for every one of the six verbs". -/
theorem C7_counterexample :
    (Client.call ⟨fun _ => .nilResponse, ⟨false⟩⟩ idEnv .get "u" (some [7]) none
        none).sent = some ⟨MethodGet, "u", [], none⟩ ∧
    (Request.mk MethodGet "u" [] none).body ≠ some [7] :=
  ⟨rfl, by decide⟩

/-- C7 (amended): for Post, Put, Patch, Delete and Head the caller can
supply optional payload bytes and the payload determines the request
body: a present payload, even zero-length, becomes the body, while an
absent (nil) payload yields a request with no body — in particular nil
and empty payloads are distinguished.  Get accepts no payload and always
sends a request with no body. -/
theorem C7_payload_body (tres : TransportResult) (opts : Options) (env : Env)
    (henv : EnvTotal env) (vb : Verb) (url : String) (payload : Option Bytes)
    (v : Option Decoder) (headers : Option Header) :
    (vb ≠ .get → ∃ r,
      (Client.call ⟨fun _ => tres, opts⟩ env vb url payload v headers).sent
          = some r ∧ r.body = payload) ∧
    (vb = .get → ∃ r,
      (Client.call ⟨fun _ => tres, opts⟩ env vb url payload v headers).sent
          = some r ∧ r.body = none) := by
  rw [call_eq _ _ henv]
  constructor
  · intro hvb
    have hp : effPayload vb payload = payload := by
      cases vb <;> first | rfl | exact absurd rfl hvb
    exact ⟨⟨vb.method, url, headers.getD [], effPayload vb payload⟩,
      by simp [runTrace, doRequest_sent], hp⟩
  · rintro rfl
    exact ⟨⟨Verb.get.method, url, headers.getD [], effPayload .get payload⟩,
      by simp [runTrace, doRequest_sent], rfl⟩

/-- C7 witness: a Delete with an empty (but present) payload sends a
request whose body is the empty byte sequence, not an absent one. -/
theorem C7_witness :
    ∃ r,
      (Client.call ⟨fun _ => .nilResponse, ⟨false⟩⟩ idEnv .delete "u" (some [])
          none none).sent = some r ∧ r.body = some [] :=
  (C7_payload_body .nilResponse ⟨false⟩ idEnv (fun _ _ _ => rfl) .delete "u"
    (some []) none none).1 (by decide)

/-- C8: with a header carrier supplied, the carrier is overwritten with
the response's headers exactly when the exchange produced a response with
a success status: it is untouched on a construction failure, a transport
failure, a nil response (where the call panics), and every classified
status; and on a success status it has already been overwritten when a
decode failure makes the call return a DecodeError. -/
theorem C8_carrier_frame (tres : TransportResult) (opts : Options) (vb : Verb)
    (url : String) (payload : Option Bytes) (v : Option Decoder) (h0 : Header) :
    (∀ env parseErr, (∀ m u b, env.newRequest m u b = .error parseErr) →
      (Client.call ⟨fun _ => tres, opts⟩ env vb url payload v (some h0)).headersOut
          = some h0) ∧
    (∀ env, EnvTotal env →
      (∀ cause, tres = .failure cause →
        (Client.call ⟨fun _ => tres, opts⟩ env vb url payload v (some h0)).headersOut
            = some h0) ∧
      (tres = .nilResponse →
        (Client.call ⟨fun _ => tres, opts⟩ env vb url payload v (some h0)).headersOut
            = some h0 ∧
        (Client.call ⟨fun _ => tres, opts⟩ env vb url payload v (some h0)).result
            = .panic) ∧
      (∀ resp, tres = .response resp → successStatus resp.statusCode = false →
        (Client.call ⟨fun _ => tres, opts⟩ env vb url payload v (some h0)).headersOut
            = some h0) ∧
      (∀ resp, tres = .response resp → successStatus resp.statusCode = true →
        (Client.call ⟨fun _ => tres, opts⟩ env vb url payload v (some h0)).headersOut
            = some resp.header) ∧
      (∀ resp d parseErr, tres = .response resp →
        successStatus resp.statusCode = true → vb ≠ .head → v = some d →
        d resp.body = some parseErr →
        (∃ e, (Client.call ⟨fun _ => tres, opts⟩ env vb url payload v
            (some h0)).result = .err e) ∧
        (Client.call ⟨fun _ => tres, opts⟩ env vb url payload v (some h0)).headersOut
            = some resp.header)) := by
  constructor
  · intro env parseErr henv
    rw [call_eq_fail _ _ _ henv]
    rfl
  · intro env henv
    refine ⟨?_, ?_, ?_, ?_, ?_⟩
    · rintro cause rfl
      rw [call_eq _ _ henv, doRequest_failure]
      rfl
    · rintro rfl
      rw [call_eq _ _ henv, doRequest_nilResponse]
      exact ⟨rfl, rfl⟩
    · rintro resp rfl hs
      rw [call_eq _ _ henv, doRequest_classified _ _ _ _ _ hs]
      rfl
    · rintro resp rfl hs
      cases hv : effDecoder vb v with
      | none => rw [call_eq _ _ henv, hv, doRequest_success_discard _ _ _ _ hs]; rfl
      | some d => rw [call_eq _ _ henv, hv, doRequest_success_decode _ _ _ _ _ hs]; rfl
    · rintro resp d parseErr rfl hs hvb rfl hd
      have hv : effDecoder vb (some d) = some d := by
        cases vb <;> first | rfl | exact absurd rfl hvb
      rw [call_eq _ _ henv, hv, doRequest_success_decode _ _ _ _ _ hs]
      exact ⟨⟨GoError.wrap "could not parse response body: " parseErr
          (" [" ++ vb.method ++ ":" ++ url ++ "] " ++ resp.body),
        by simp [runTrace, hd]⟩, rfl⟩

/-- C8 witness: the same carrier is untouched by a 500 classified
response, but overwritten by a 204 response even though the decode target
then fails. -/
theorem C8_witness :
    (Client.call ⟨fun _ => .response ⟨500, [("a", ["1"])], ""⟩, ⟨false⟩⟩ idEnv .post
        "u" none (some fun _ => some (.sentinel "bad")) (some [("c", ["k"])])).headersOut
      = some [("c", ["k"])] ∧
    (Client.call ⟨fun _ => .response ⟨204, [("a", ["1"])], ""⟩, ⟨false⟩⟩ idEnv .post
        "u" none (some fun _ => some (.sentinel "bad")) (some [("c", ["k"])])).headersOut
      = some [("a", ["1"])] :=
  ⟨((C8_carrier_frame (.response ⟨500, [("a", ["1"])], ""⟩) ⟨false⟩ .post "u" none
        (some fun _ => some (.sentinel "bad")) [("c", ["k"])]).2 idEnv
      (fun _ _ _ => rfl)).2.2.1 ⟨500, [("a", ["1"])], ""⟩ rfl rfl,
    (((C8_carrier_frame (.response ⟨204, [("a", ["1"])], ""⟩) ⟨false⟩ .post "u" none
        (some fun _ => some (.sentinel "bad")) [("c", ["k"])]).2 idEnv
      (fun _ _ _ => rfl)).2.2.2.2 ⟨204, [("a", ["1"])], ""⟩
      (fun _ => some (.sentinel "bad")) (.sentinel "bad") rfl rfl (by decide)
      rfl rfl).2⟩

/-- C9: with Debug enabled, every verb call whose construction succeeds
serializes the fully formed request — method, URL, headers and body — to
the diagnostic sink before the exchange, and the dump leaves the body
intact: the transport receives a request carrying the complete payload
bytes. -/
theorem C9_debug_dump (tres : TransportResult) (env : Env) (henv : EnvTotal env)
    (vb : Verb) (url : String) (payload : Option Bytes) (v : Option Decoder)
    (headers : Option Header) :
    (Client.call ⟨fun _ => tres, ⟨true⟩⟩ env vb url payload v headers).debugDump
        = some (dumpRequest ⟨vb.method, url, [], effPayload vb payload⟩) ∧
    ContainsStr (dumpRequest ⟨vb.method, url, [], effPayload vb payload⟩)
        (bodyText (effPayload vb payload)) ∧
    ContainsStr (dumpRequest ⟨vb.method, url, [], effPayload vb payload⟩)
        (headerText []) ∧
    ContainsStr (dumpRequest ⟨vb.method, url, [], effPayload vb payload⟩) vb.method ∧
    ContainsStr (dumpRequest ⟨vb.method, url, [], effPayload vb payload⟩) url ∧
    (∃ r,
      (Client.call ⟨fun _ => tres, ⟨true⟩⟩ env vb url payload v headers).sent
          = some r ∧ r.body = effPayload vb payload) := by
  rw [call_eq _ _ henv]
  refine ⟨rfl, ?_, ?_, ?_, ?_,
    ⟨⟨vb.method, url, headers.getD [], effPayload vb payload⟩,
      by simp [runTrace, doRequest_sent], rfl⟩⟩
  · apply containsStr_intro _ _
      (vb.method ++ " " ++ url ++ " " ++ headerText [] ++ " ").data []
    simp [dumpRequest, String.data_append, List.append_assoc]
  · apply containsStr_intro _ _ (vb.method ++ " " ++ url ++ " ").data
      (" " ++ bodyText (effPayload vb payload)).data
    simp [dumpRequest, String.data_append, List.append_assoc]
  · apply containsStr_intro _ _ []
      (" " ++ url ++ " " ++ headerText [] ++ " " ++
        bodyText (effPayload vb payload)).data
    simp [dumpRequest, String.data_append, List.append_assoc]
  · apply containsStr_intro _ _ (vb.method ++ " ").data
      (" " ++ headerText [] ++ " " ++ bodyText (effPayload vb payload)).data
    simp [dumpRequest, String.data_append, List.append_assoc]

/-- C9 witness: a Debug Patch call dumps the request with its payload and
still sends that payload to the transport. -/
theorem C9_witness :
    (Client.call ⟨fun _ => .nilResponse, ⟨true⟩⟩ idEnv .patch "u" (some [9, 8])
        none none).debugDump
      = some (dumpRequest ⟨(Verb.patch).method, "u", [], effPayload .patch (some [9, 8])⟩) ∧
    ∃ r,
      (Client.call ⟨fun _ => .nilResponse, ⟨true⟩⟩ idEnv .patch "u" (some [9, 8])
          none none).sent = some r ∧ r.body = effPayload .patch (some [9, 8]) :=
  ⟨(C9_debug_dump .nilResponse idEnv (fun _ _ _ => rfl) .patch "u" (some [9, 8])
      none none).1,
    (C9_debug_dump .nilResponse idEnv (fun _ _ _ => rfl) .patch "u" (some [9, 8])
      none none).2.2.2.2.2⟩

/-- C10: New with nil transport and nil configuration succeeds, storing
the default HTTP client and a default configuration with Debug disabled;
with non-nil arguments it stores exactly what it was given. -/
theorem C10_new_defaults :
    New none none = ⟨DefaultClient, ⟨false⟩⟩ ∧
    (New none none).options.Debug = false ∧
    ∀ (t : Transport) (o : Options), New (some t) (some o) = ⟨t, o⟩ :=
  ⟨rfl, rfl, fun _ _ => rfl⟩

end HttpClientProof
